import Mathlib

/-!
Verification of the fleet orchestrator in src/server/Master.ts.

The definitions below are a shallow embedding of the orchestrator code:
the lobby aggregation cycle (fetchLobbies), the public game scheduler
(schedulePublicGame and the interval tick installed in startMaster), the
worker readiness handler, the worker crash handler, the worker-route
matcher shared by the HTTP proxy middleware and the WebSocket upgrade
handler, and the public lobby listing endpoint.

Outbound HTTP is modelled by environment functions mapping a game id to
the outcome of the corresponding request. A fetch outcome distinguishes
a rejected fetch (network error or abort after the 5 second timeout)
from a completed response carrying a status code and a body; the body is
none when it does not parse as JSON (resp.json() throws) and some info
when it parses. Note that the code never inspects the status code of a
status query, only schedulePublicGame checks response.ok.
-/

/-- Modelled from the spec: configuration of a lobby as found in the worker
status payload (only maxPlayers is consumed by Master.ts; the field may be
absent, which Master.ts guards against explicitly). -/
structure GameConfig where
  maxPlayers : Option Nat
  deriving DecidableEq

/-- Modelled from the spec: the worker status payload for GET /api/game/id,
with the optionality that Master.ts itself defends against (clients,
gameConfig and msUntilStart may each be absent). -/
structure GameInfo where
  gameID : String
  clients : Option (List String)
  gameConfig : Option GameConfig
  msUntilStart : Option Int
  deriving DecidableEq

/-- Derived snapshot built by fetchLobbies for each successful response.
After derivation numClients and msUntilStart are always present, matching
the object literal built at lines 301-308 of Master.ts. -/
structure LobbyInfo where
  gameID : String
  numClients : Nat
  gameConfig : Option GameConfig
  msUntilStart : Int
  deriving DecidableEq

/-- Outcome of one status query. netError covers a rejected fetch
(network failure or the 5 second abort). response st body is a completed
HTTP response with status st; body is none when resp.json() throws. -/
inductive FetchOutcome where
  | netError : FetchOutcome
  | response : Nat → Option GameInfo → FetchOutcome
  deriving DecidableEq

/-- Result of the per-lobby promise chain in fetchLobbies: the catch
handler turns a rejected fetch or a body that fails to parse into null;
a parsed body is returned as GameInfo, with the status code never read. -/
def fetchResult (env : String → FetchOutcome) (g : String) : Option GameInfo :=
  match env g with
  | FetchOutcome.netError => none
  | FetchOutcome.response _ body => body

/-- Mutable module state of Master.ts: the tracked set publicLobbyIDs and
the cached listing string publicLobbiesJsonStr. The set is modelled as a
list in insertion order. -/
structure MasterState where
  publicLobbyIDs : List String
  publicLobbiesJsonStr : String
  deriving DecidableEq

/-- Initial values at module load: empty tracked set, empty string cache. -/
def initialMasterState : MasterState :=
  { publicLobbyIDs := [], publicLobbiesJsonStr := "" }

/-- JS Set.add: append when not yet a member. -/
def setInsert (s : List String) (x : String) : List String :=
  if x ∈ s then s else s ++ [x]

/-- JS Set.delete: remove the element, keeping order of the others. -/
def setDelete (s : List String) (x : String) : List String :=
  s.filter (fun y => y ≠ x)

/-- JS new Set(xs): deduplicate keeping first occurrences. -/
def setDedup (s : List String) : List String :=
  s.foldl setInsert []

/-- Snapshot derivation of fetchLobbies (lines 301-308): numClients is
clients.length with default 0, msUntilStart is the reported absolute time
with default now, minus now. -/
def deriveLobbyInfo (now : Int) (gi : GameInfo) : LobbyInfo :=
  { gameID := gi.gameID
    numClients := match gi.clients with
      | none => 0
      | some cs => cs.length
    gameConfig := gi.gameConfig
    msUntilStart := (gi.msUntilStart.getD now) - now }

/-- First removal rule (lines 311-318): derived msUntilStart at most 250.
In the derived object the field is always a number, so the undefined
guards in the source are always passed. -/
def shouldDropTime (l : LobbyInfo) : Bool :=
  decide (l.msUntilStart ≤ 250)

/-- Second removal rule (lines 320-331): maxPlayers present and at most
numClients. Absent gameConfig or absent maxPlayers means no drop. -/
def shouldDropFull (l : LobbyInfo) : Bool :=
  match l.gameConfig with
  | none => false
  | some gc =>
    match gc.maxPlayers with
    | none => false
    | some mp => decide (mp ≤ l.numClients)

/-- One step of the forEach at lines 310-332: delete the gameID of a
snapshot that satisfies either removal rule. -/
def dropStep (t : List String) (l : LobbyInfo) : List String :=
  if shouldDropTime l || shouldDropFull l then setDelete t l.gameID else t

/-- Effect of the whole forEach on the tracked set. -/
def applyDrops (t : List String) (ls : List LobbyInfo) : List String :=
  ls.foldl dropStep t

/-- List of snapshots derived in one cycle: iterate the dedup snapshot of
the tracked set, keep the successful results, derive each. The dropped
snapshots are NOT filtered out of this list in the source. -/
def fetchInfos (env : String → FetchOutcome) (now : Int) (s : MasterState) :
    List LobbyInfo :=
  ((setDedup s.publicLobbyIDs).filterMap (fetchResult env)).map (deriveLobbyInfo now)

/-- Serialization of a gameConfig as JSON.stringify renders it. -/
def serializeGameConfig (gc : GameConfig) : String :=
  match gc.maxPlayers with
  | none => "\x7b\x7d"
  | some mp => "\x7b\"maxPlayers\":" ++ toString mp ++ "\x7d"

/-- Serialization of one snapshot: key order of the object literal, with
gameConfig omitted when undefined, as JSON.stringify does. -/
def serializeLobbyInfo (l : LobbyInfo) : String :=
  "\x7b\"gameID\":\"" ++ l.gameID ++ "\",\"numClients\":" ++ toString l.numClients
    ++ (match l.gameConfig with
        | none => ""
        | some gc => ",\"gameConfig\":" ++ serializeGameConfig gc)
    ++ ",\"msUntilStart\":" ++ toString l.msUntilStart ++ "\x7d"

/-- Serialization of the whole listing object written to the cache. -/
def serializeListing (ls : List LobbyInfo) : String :=
  "\x7b\"lobbies\":[" ++ String.intercalate "," (ls.map serializeLobbyInfo) ++ "]\x7d"

/-- The aggregation cycle fetchLobbies (lines 270-340). Phase one issues
the status queries over a dedup snapshot of the tracked set and deletes
every id whose query failed. Phase two derives the snapshots, applies the
removal rules to the tracked set, overwrites the cached listing with the
serialization of ALL derived snapshots, and returns the size of the
tracked set after the deletions. -/
def fetchLobbies (env : String → FetchOutcome) (now : Int) (s : MasterState) :
    MasterState × Nat :=
  let tracked1 := s.publicLobbyIDs.filter (fun g => (fetchResult env g).isSome)
  let infos := fetchInfos env now s
  let tracked2 := applyDrops tracked1 infos
  ({ publicLobbyIDs := tracked2, publicLobbiesJsonStr := serializeListing infos },
   tracked2.length)

/-- Modelled from the spec: the routing configuration of ConfigLoader is
not under src; it is a pure derivation from a game identifier of the
owning worker port and path, plus the pool size. -/
structure ServerConfig where
  numWorkers : Nat
  workerPort : String → Nat
  workerPath : String → String

/-- Outcome of the create-game POST issued by schedulePublicGame. -/
inductive CreateOutcome where
  | netError : CreateOutcome
  | response : Nat → CreateOutcome
  deriving DecidableEq

/-- JS Response.ok: status in the range 200 to 299. -/
def respOk (status : Nat) : Bool :=
  decide (200 ≤ status) && decide (status < 300)

/-- Create-lobby call as observed by the target worker. -/
structure CreateCall where
  gameID : String
  port : Nat
  deriving DecidableEq

/-- Observable result of schedulePublicGame: the tracked set at the moment
the POST is issued, the tracked set when the function returns, the call
itself, and whether the error path ran (log plus rethrow). -/
structure SchedResult where
  trackedAtPost : List String
  trackedAfter : List String
  call : CreateCall
  errorLogged : Bool
  errorThrown : Bool
  deriving DecidableEq

/-- schedulePublicGame (lines 343-370): generate an id (passed in as
newID since generateID is not under src), add it to the tracked set,
then POST to the owning worker; a rejected fetch or a response with ok
false runs the catch, which logs and rethrows, leaving the id tracked. -/
def schedulePublicGame (cfg : ServerConfig) (createEnv : String → CreateOutcome)
    (newID : String) (tracked : List String) : SchedResult :=
  let tracked1 := setInsert tracked newID
  let failed :=
    match createEnv newID with
    | CreateOutcome.netError => true
    | CreateOutcome.response st => !(respOk st)
  { trackedAtPost := tracked1
    trackedAfter := tracked1
    call := { gameID := newID, port := cfg.workerPort newID }
    errorLogged := failed
    errorThrown := failed }

/-- Result of one tick of the interval installed at lines 108-116. -/
structure TickResult where
  state : MasterState
  createCalls : List CreateCall
  deriving DecidableEq

/-- One scheduler tick: run fetchLobbies, and when the returned count is
zero call schedulePublicGame once (its error is caught and logged at the
tick level so the loop continues). -/
def schedulerTick (cfg : ServerConfig) (env : String → FetchOutcome)
    (createEnv : String → CreateOutcome) (newID : String) (now : Int)
    (s : MasterState) : TickResult :=
  let fr := fetchLobbies env now s
  if fr.2 = 0 then
    let r := schedulePublicGame cfg createEnv newID fr.1.publicLobbyIDs
    { state := { publicLobbyIDs := r.trackedAfter
                 publicLobbiesJsonStr := fr.1.publicLobbiesJsonStr }
      createCalls := [r.call] }
  else
    { state := fr.1, createCalls := [] }

/-- Message received on the cluster control channel. -/
structure WorkerMessage where
  mtype : String
  workerId : Nat
  deriving DecidableEq

/-- Readiness bookkeeping: the readyWorkers set and how many times the
pool-ready branch (which installs the scheduling interval) has run. -/
structure ReadyState where
  readyWorkers : List Nat
  poolReadyFires : Nat
  deriving DecidableEq

/-- JS Set.add on the readiness set. -/
def natSetInsert (s : List Nat) (x : Nat) : List Nat :=
  if x ∈ s then s else s ++ [x]

/-- The cluster message handler at lines 91-119: on a WORKER_READY
message add the id to the set, and whenever the size then equals
numWorkers run the pool-ready branch (counted by poolReadyFires). -/
def handleMessage (numWorkers : Nat) (s : ReadyState) (m : WorkerMessage) :
    ReadyState :=
  if m.mtype = "WORKER_READY" then
    let ready := natSetInsert s.readyWorkers m.workerId
    if ready.length = numWorkers then
      { readyWorkers := ready, poolReadyFires := s.poolReadyFires + 1 }
    else
      { readyWorkers := ready, poolReadyFires := s.poolReadyFires }
  else s

/-- Fold of the message handler over a whole arrival sequence, starting
from the empty readiness set. -/
def runMessages (numWorkers : Nat) (msgs : List WorkerMessage) : ReadyState :=
  msgs.foldl (handleMessage numWorkers) { readyWorkers := [], poolReadyFires := 0 }

/-- Fork request issued when restarting a crashed worker. -/
structure ForkCall where
  workerId : String
  adminToken : String
  deriving DecidableEq

/-- The cluster exit handler at lines 122-143: recover WORKER_ID from the
process metadata of the dead worker; a JS-falsy value (absent or the
empty string) logs a hard error and skips the restart, otherwise fork a
new worker with the same id and the same admin token. The Bool records
whether the hard error was logged. -/
def handleWorkerExit (adminToken : String) (recoveredId : Option String) :
    Option ForkCall × Bool :=
  match recoveredId with
  | none => (none, true)
  | some id =>
    if id = "" then (none, true)
    else (some { workerId := id, adminToken := adminToken }, false)

/-- Characters matched by an unflagged dot in a JS regular expression:
everything but the four line terminators. -/
def isRegexDot (c : Char) : Bool :=
  !(c == '\n' || c == '\r' || c == '\u2028' || c == '\u2029')

/-- Value of parseInt on a nonempty digit string. -/
def digitsToNat (ds : List Char) : Nat :=
  ds.foldl (fun n c => n * 10 + (c.toNat - 48)) 0

/-- The worker route pattern used identically at line 154 and line 226:
slash, w, one or more digits, then either the end of the url or a slash
followed by arbitrary non-line-terminator characters (the optional
second capture group). Returns the parsed index and the capture. -/
def matchWorkerUrl (url : String) : Option (Nat × Option String) :=
  match url.data with
  | '/' :: 'w' :: rest =>
    let ds := rest.takeWhile Char.isDigit
    let tl := rest.dropWhile Char.isDigit
    if ds = [] then none
    else
      match tl with
      | [] => some (digitsToNat ds, none)
      | '/' :: tl2 =>
        if tl2.all isRegexDot then some (digitsToNat ds, some (String.mk ('/' :: tl2)))
        else none
      | _ => none
  | _ => none

/-- Decision of the upgrade handler at lines 152-207: destroy the socket
on a non-matching url, otherwise open a connection to localhost on port
3001 plus the index, with the original url as path. -/
inductive UpgradeAction where
  | destroySocket : UpgradeAction
  | connectWorker : Nat → String → UpgradeAction
  deriving DecidableEq

/-- The upgrade handler routing decision. -/
def upgradeHandler (url : String) : UpgradeAction :=
  match matchWorkerUrl url with
  | none => UpgradeAction.destroySocket
  | some (d, _) => UpgradeAction.connectWorker (3001 + d) url

/-- Substring of the url from the first question mark to the end,
as req.url.substring(req.url.indexOf of the question mark). -/
def querySuffix (url : String) : String :=
  String.mk (url.data.dropWhile (fun c => c != '?'))

/-- Whether the url contains a question mark. -/
def hasQuery (url : String) : Bool :=
  url.data.contains '?'

/-- Upstream path built by the proxy middleware (lines 240-252): the
worker id re-rendered from parseInt, the second capture defaulted to a
slash, and, when the url has a query, the url suffix from the question
mark appended as well. Note the capture already contains the query. -/
def proxyPathOf (workerId : Nat) (workerPathVal : String) (url : String) : String :=
  if hasQuery url then
    "/w" ++ toString workerId ++ workerPathVal ++ querySuffix url
  else
    "/w" ++ toString workerId ++ workerPathVal

/-- Upstream request issued by the proxy middleware: target port, path,
method, and headers (the request headers with host overwritten). -/
structure RelaySpec where
  port : Nat
  path : String
  method : String
  headers : String → Option String

/-- The proxy middleware at lines 225-268: a non-matching url falls
through to the next handler (none); a matching url is relayed to port
3001 plus the index with the method preserved, the rebuilt path, and all
request headers with host overwritten to localhost:port. The request and
response bodies are piped through unmodified (not modelled further). -/
def proxyMiddleware (method : String) (url : String)
    (reqHeaders : String → Option String) : Option RelaySpec :=
  match matchWorkerUrl url with
  | none => none
  | some (d, rest) =>
    let workerPathVal := rest.getD "/"
    let port := 3001 + d
    some { port := port
           path := proxyPathOf d workerPathVal url
           method := method
           headers := fun k =>
             if k = "host" then some ("localhost:" ++ toString port)
             else reqHeaders k }

/-- Downstream status written by the middleware response handler:
proxyRes.statusCode with JS-falsy values (absent or zero) replaced by
500. -/
def mirrorStatus (statusCode : Option Nat) : Nat :=
  match statusCode with
  | none => 500
  | some st => if st = 0 then 500 else st

/-- The GET /api/public_lobbies handler at lines 219-221: send the cached
string as the response body. -/
def publicLobbiesResponse (s : MasterState) : String :=
  s.publicLobbiesJsonStr

/-! Concrete inputs used by counterexamples and witnesses. -/

/-- Status payload for the C1 counterexample: start time equal to now. -/
def giC1 : GameInfo :=
  { gameID := "g1", clients := some [], gameConfig := none, msUntilStart := some 1000 }

/-- Environment for the C1 counterexample. -/
def envC1 : String → FetchOutcome := fun g =>
  if g = "g1" then FetchOutcome.response 200 (some giC1) else FetchOutcome.netError

/-- State for the C1 counterexample: one tracked lobby. -/
def stC1 : MasterState :=
  { publicLobbyIDs := ["g1"], publicLobbiesJsonStr := "" }

/-- Status payload for the C3 counterexample: every optional field absent. -/
def giC3 : GameInfo :=
  { gameID := "g1", clients := none, gameConfig := none, msUntilStart := none }

/-- Environment for the C3 counterexample. -/
def envC3 : String → FetchOutcome := fun g =>
  if g = "g1" then FetchOutcome.response 200 (some giC3) else FetchOutcome.netError

/-- State for the C3 counterexample. -/
def stC3 : MasterState :=
  { publicLobbyIDs := ["g1"], publicLobbiesJsonStr := "" }

/-- Config for the C4 witness. -/
def cfgW4 : ServerConfig :=
  { numWorkers := 1, workerPort := fun _ => 3001, workerPath := fun _ => "/w0" }

/-- Fetch environment for the C4 witness: every query fails. -/
def envW4 : String → FetchOutcome := fun _ => FetchOutcome.netError

/-- Create environment for the C4 witness: worker accepts. -/
def ceW4 : String → CreateOutcome := fun _ => CreateOutcome.response 200

/-- Status payload for the C6 counterexample: joinable and far from
starting, delivered with a non-2xx status code. -/
def giC6 : GameInfo :=
  { gameID := "g1", clients := some [], gameConfig := some { maxPlayers := some 4 },
    msUntilStart := some 999999 }

/-- Environment for the C6 counterexample: a completed response with
status 500 whose body parses as JSON. -/
def envC6 : String → FetchOutcome := fun g =>
  if g = "g1" then FetchOutcome.response 500 (some giC6) else FetchOutcome.netError

/-- State for the C6 counterexample. -/
def stC6 : MasterState :=
  { publicLobbyIDs := ["g1"], publicLobbiesJsonStr := "" }

/-- Status payload for the C6 witness. -/
def giW6 : GameInfo :=
  { gameID := "g2", clients := some [], gameConfig := some { maxPlayers := some 4 },
    msUntilStart := some 999999 }

/-- Environment for the C6 witness: the query for g1 fails, the query for
g2 succeeds. -/
def envW6 : String → FetchOutcome := fun g =>
  if g = "g2" then FetchOutcome.response 200 (some giW6) else FetchOutcome.netError

/-- State for the C6 witness: two tracked lobbies. -/
def stW6 : MasterState :=
  { publicLobbyIDs := ["g1", "g2"], publicLobbiesJsonStr := "" }

/-! Helper lemmas about the set operations and the drop fold. -/

theorem mem_setInsert (y : String) (s : List String) (x : String) :
    y ∈ setInsert s x ↔ y ∈ s ∨ y = x := by
  unfold setInsert
  split
  · rename_i h
    constructor
    · exact Or.inl
    · rintro (h1 | rfl)
      · exact h1
      · exact h
  · simp [List.mem_append]

theorem self_mem_setInsert (s : List String) (x : String) :
    x ∈ setInsert s x :=
  (mem_setInsert x s x).mpr (Or.inr rfl)

theorem mem_setDelete (y : String) (s : List String) (x : String) :
    y ∈ setDelete s x ↔ y ∈ s ∧ y ≠ x := by
  simp [setDelete, List.mem_filter]

theorem mem_foldl_setInsert (s : List String) :
    ∀ (acc : List String) (x : String),
      x ∈ s.foldl setInsert acc ↔ x ∈ acc ∨ x ∈ s := by
  induction s with
  | nil => intro acc x; simp
  | cons a s ih =>
    intro acc x
    rw [List.foldl_cons, ih, mem_setInsert]
    simp [List.mem_cons]
    tauto

theorem mem_setDedup (s : List String) (x : String) :
    x ∈ setDedup s ↔ x ∈ s := by
  unfold setDedup
  rw [mem_foldl_setInsert]
  simp

theorem mem_dropStep (t : List String) (l : LobbyInfo) (g : String)
    (h : g ∈ dropStep t l) : g ∈ t := by
  unfold dropStep at h
  split at h
  · exact ((mem_setDelete g t l.gameID).mp h).1
  · exact h

theorem applyDrops_subset (ls : List LobbyInfo) :
    ∀ (t : List String) (g : String), g ∈ applyDrops t ls → g ∈ t := by
  induction ls with
  | nil => intro t g h; exact h
  | cons a ls ih =>
    intro t g h
    exact mem_dropStep t a g (ih (dropStep t a) g h)

theorem applyDrops_removes (ls : List LobbyInfo) :
    ∀ (t : List String) (l : LobbyInfo), l ∈ ls →
      (shouldDropTime l || shouldDropFull l) = true →
      l.gameID ∉ applyDrops t ls := by
  induction ls with
  | nil => intro t l h; cases h
  | cons a ls ih =>
    intro t l hmem hdrop habs
    rcases List.mem_cons.mp hmem with heq | hmem2
    · subst heq
      have h1 : l.gameID ∈ dropStep t l :=
        applyDrops_subset ls (dropStep t l) l.gameID habs
      unfold dropStep at h1
      rw [if_pos hdrop] at h1
      exact ((mem_setDelete l.gameID t l.gameID).mp h1).2 rfl
    · exact ih (dropStep t a) l hmem2 hdrop habs

/-! Claim theorems. -/

/-- C1 counterexample: with one tracked lobby whose derived
time-until-start is 0, after the cycle the lobby is removed from the
tracked set, yet the published listing still serializes its snapshot and
is not the serialization of the empty set of survivors. This refutes the
claim that the listing published by the cycle contains only the
surviving snapshots. -/
theorem c1_counterexample :
    (fetchLobbies envC1 1000 stC1).1.publicLobbyIDs = [] ∧
    (fetchLobbies envC1 1000 stC1).1.publicLobbiesJsonStr
      = serializeListing [{ gameID := "g1", numClients := 0, gameConfig := none,
                            msUntilStart := 0 }] ∧
    (fetchLobbies envC1 1000 stC1).1.publicLobbiesJsonStr ≠ serializeListing [] := by
  refine ⟨rfl, rfl, ?_⟩
  decide

/-- C1 amended: a snapshot satisfying a removal rule has its gameID
removed from the tracked set, but the listing published by the same
cycle is the serialization of ALL snapshots derived in the cycle,
dropped ones included; dropped lobbies only disappear from subsequent
cycles. -/
theorem c1_amended (env : String → FetchOutcome) (now : Int) (s : MasterState)
    (l : LobbyInfo) (h1 : l ∈ fetchInfos env now s)
    (h2 : shouldDropTime l = true ∨ shouldDropFull l = true) :
    l.gameID ∉ (fetchLobbies env now s).1.publicLobbyIDs ∧
    (fetchLobbies env now s).1.publicLobbiesJsonStr
      = serializeListing (fetchInfos env now s) := by
  constructor
  · have hdef : (fetchLobbies env now s).1.publicLobbyIDs
        = applyDrops (s.publicLobbyIDs.filter (fun g => (fetchResult env g).isSome))
            (fetchInfos env now s) := rfl
    rw [hdef]
    refine applyDrops_removes (fetchInfos env now s) _ l h1 ?_
    rcases h2 with h | h <;> simp [h]
  · rfl

/-- C1 witness: instance of the amended theorem on the counterexample
inputs. -/
theorem c1_witness :
    ({ gameID := "g1", numClients := 0, gameConfig := none,
       msUntilStart := 0 } : LobbyInfo).gameID
      ∉ (fetchLobbies envC1 1000 stC1).1.publicLobbyIDs :=
  (c1_amended envC1 1000 stC1 _ (by decide) (Or.inl (by decide))).1

/-- C2 evaluation at the failing input: with a pool of two workers, the
ready sequence worker 0, worker 1, then worker 0 again (a restarted
worker re-signalling) makes the pool-ready branch run twice, because the
size check is re-evaluated on every message and the set never shrinks.
The claim says it fires exactly once. -/
theorem c2_bug_eval :
    (runMessages 2
      [{ mtype := "WORKER_READY", workerId := 0 },
       { mtype := "WORKER_READY", workerId := 1 },
       { mtype := "WORKER_READY", workerId := 0 }]).poolReadyFires = 2 := by
  decide

/-- C3 counterexample: a response with msUntilStart absent derives a
time-until-start of 0, which satisfies the time removal rule, so the
lobby IS dropped from tracking, refuting the claim that the time check
is a no-op when the field is absent from the response. -/
theorem c3_counterexample :
    giC3.msUntilStart = none ∧
    shouldDropTime (deriveLobbyInfo 1000 giC3) = true ∧
    shouldDropFull (deriveLobbyInfo 1000 giC3) = false ∧
    (fetchLobbies envC3 1000 stC3).1.publicLobbyIDs = [] := by
  refine ⟨rfl, by decide, rfl, rfl⟩

/-- C3 amended: absent clients defaults numClients to 0; absent
msUntilStart derives now minus now, that is 0; the fullness check is a
no-op when gameConfig or maxPlayers is absent; but the derived
time-until-start is always present, so a response lacking msUntilStart
derives 0 and is dropped by the time rule rather than exempted. -/
theorem c3_amended (now : Int) (gi : GameInfo)
    (hc : gi.clients = none) (hm : gi.msUntilStart = none)
    (hg : gi.gameConfig = none ∨
          ∃ gc, gi.gameConfig = some gc ∧ gc.maxPlayers = none) :
    (deriveLobbyInfo now gi).numClients = 0 ∧
    (deriveLobbyInfo now gi).msUntilStart = 0 ∧
    shouldDropTime (deriveLobbyInfo now gi) = true ∧
    shouldDropFull (deriveLobbyInfo now gi) = false := by
  refine ⟨?_, ?_, ?_, ?_⟩
  · simp [deriveLobbyInfo, hc]
  · simp [deriveLobbyInfo, hm]
  · simp [shouldDropTime, deriveLobbyInfo, hm]
  · rcases hg with h | ⟨gc, hgc, hmp⟩
    · simp [shouldDropFull, deriveLobbyInfo, h]
    · simp [shouldDropFull, deriveLobbyInfo, hgc, hmp]

/-- C3 witness: instance of the amended theorem on a payload with every
optional field absent. -/
theorem c3_witness :
    (deriveLobbyInfo 5 giC3).numClients = 0 ∧
    (deriveLobbyInfo 5 giC3).msUntilStart = 0 ∧
    shouldDropTime (deriveLobbyInfo 5 giC3) = true ∧
    shouldDropFull (deriveLobbyInfo 5 giC3) = false :=
  c3_amended 5 giC3 rfl rfl (Or.inl rfl)

/-- C4: on a scheduler tick, when fetchLobbies returns exactly 0 the
tick issues exactly one create call, carrying the freshly generated
identifier and routed by the configured port derivation; when the count
is nonzero the tick issues no create call. -/
theorem c4_scheduler_trigger (cfg : ServerConfig) (env : String → FetchOutcome)
    (createEnv : String → CreateOutcome) (newID : String) (now : Int)
    (s : MasterState) :
    ((fetchLobbies env now s).2 = 0 →
      (schedulerTick cfg env createEnv newID now s).createCalls
        = [{ gameID := newID, port := cfg.workerPort newID }]) ∧
    ((fetchLobbies env now s).2 ≠ 0 →
      (schedulerTick cfg env createEnv newID now s).createCalls = []) := by
  constructor
  · intro h
    simp [schedulerTick, h, schedulePublicGame]
  · intro h
    simp [schedulerTick, h]

/-- C4 witness: instance with an empty tracked set, where the count is 0
and exactly one create call with the fresh id is issued. -/
theorem c4_witness :
    (schedulerTick cfgW4 envW4 ceW4 "id1" 0 initialMasterState).createCalls
      = [{ gameID := "id1", port := 3001 }] :=
  (c4_scheduler_trigger cfgW4 envW4 ceW4 "id1" 0 initialMasterState).1 (by decide)

/-- C5: schedulePublicGame registers the fresh id in the tracked set
before the POST is issued; the error path runs exactly when the create
call fails (network error or non-2xx status), in which case the error is
logged and rethrown to the caller; and the id is still tracked when the
function returns, on success and failure alike. -/
theorem c5_optimistic_registration (cfg : ServerConfig)
    (createEnv : String → CreateOutcome) (newID : String)
    (tracked : List String) :
    newID ∈ (schedulePublicGame cfg createEnv newID tracked).trackedAtPost ∧
    (schedulePublicGame cfg createEnv newID tracked).errorThrown
      = (match createEnv newID with
         | CreateOutcome.netError => true
         | CreateOutcome.response st => !(respOk st)) ∧
    (schedulePublicGame cfg createEnv newID tracked).errorLogged
      = (schedulePublicGame cfg createEnv newID tracked).errorThrown ∧
    newID ∈ (schedulePublicGame cfg createEnv newID tracked).trackedAfter := by
  refine ⟨?_, rfl, rfl, ?_⟩
  · exact self_mem_setInsert tracked newID
  · exact self_mem_setInsert tracked newID

/-- C6 counterexample: a status query completing with status 500 and a
JSON body is not treated as a failure by fetchLobbies, because the status
code of the response is never inspected: the lobby stays tracked and its
snapshot is published, refuting the claim that a non-2xx response removes
the lobby and excludes it from the results. -/
theorem c6_counterexample :
    envC6 "g1" = FetchOutcome.response 500 (some giC6) ∧
    "g1" ∈ (fetchLobbies envC6 0 stC6).1.publicLobbyIDs ∧
    (fetchLobbies envC6 0 stC6).1.publicLobbiesJsonStr
      = serializeListing [deriveLobbyInfo 0 giC6] := by
  refine ⟨by decide, by decide, rfl⟩

/-- C6 amended: queries fail independently; a query whose fetch rejects
(network error or the 5 second abort) or whose body fails to parse as
JSON has its lobby removed from the tracked set and contributes no
snapshot, while every lobby with a parsed body has its snapshot in the
published listing regardless of status code; the listing is the
serialization of exactly the derived snapshots. -/
theorem c6_amended (env : String → FetchOutcome) (now : Int) (s : MasterState)
    (g : String) (hg : g ∈ s.publicLobbyIDs) (hf : fetchResult env g = none) :
    g ∉ (fetchLobbies env now s).1.publicLobbyIDs ∧
    (∀ g2, g2 ∈ s.publicLobbyIDs → ∀ gi, fetchResult env g2 = some gi →
        deriveLobbyInfo now gi ∈ fetchInfos env now s) ∧
    (fetchLobbies env now s).1.publicLobbiesJsonStr
      = serializeListing (fetchInfos env now s) := by
  refine ⟨?_, ?_, rfl⟩
  · intro habs
    have hdef : (fetchLobbies env now s).1.publicLobbyIDs
        = applyDrops (s.publicLobbyIDs.filter (fun x => (fetchResult env x).isSome))
            (fetchInfos env now s) := rfl
    rw [hdef] at habs
    have h1 := applyDrops_subset (fetchInfos env now s) _ g habs
    have h2 := List.mem_filter.mp h1
    rw [hf] at h2
    simp at h2
  · intro g2 hg2 gi hgi
    unfold fetchInfos
    refine List.mem_map_of_mem (deriveLobbyInfo now) ?_
    refine List.mem_filterMap.mpr ⟨g2, ?_, hgi⟩
    exact (mem_setDedup s.publicLobbyIDs g2).mpr hg2

/-- C6 witness: with two tracked lobbies where the query for g1 fails and
the query for g2 succeeds, g1 is removed from the tracked set. -/
theorem c6_witness :
    "g1" ∉ (fetchLobbies envW6 0 stW6).1.publicLobbyIDs :=
  (c6_amended envW6 0 stW6 "g1" (by decide) (by decide)).1

/-- C7 evaluation at the failing input: for GET on /w2/api/x?y=1 the
middleware relays to port 3003 but builds the upstream path
/w2/api/x?y=1?y=1, because the second capture group already contains the
query string and the query suffix is appended again; the claim says the
query string is relayed intact. -/
theorem c7_bug_eval :
    (proxyMiddleware "GET" "/w2/api/x?y=1" (fun _ => none)).map RelaySpec.path
      = some "/w2/api/x?y=1?y=1" ∧
    (proxyMiddleware "GET" "/w2/api/x?y=1" (fun _ => none)).map RelaySpec.port
      = some 3003 ∧
    "/w2/api/x?y=1?y=1" ≠ "/w2/api/x?y=1" := by
  refine ⟨by decide, by decide, by decide⟩

/-- C8: the exit handler restarts a crashed worker with the same worker
id and the same admin token whenever the id is recovered from the
process metadata (worker ids are nonempty strings), and skips the
restart, logging a hard error, exactly when recovery fails. -/
theorem c8_restart_identity (tok id : String) (r : Option String)
    (h1 : r = some id) (h2 : id ≠ "") :
    handleWorkerExit tok r = (some { workerId := id, adminToken := tok }, false) ∧
    handleWorkerExit tok none = (none, true) := by
  subst h1
  refine ⟨?_, rfl⟩
  simp [handleWorkerExit, h2]

/-- C8 witness: instance for a worker whose recovered id is 3. -/
theorem c8_witness :
    handleWorkerExit "tok" (some "3")
      = (some { workerId := "3", adminToken := "tok" }, false) ∧
    handleWorkerExit "tok" none = (none, true) :=
  c8_restart_identity "tok" "3" (some "3") rfl (by decide)

/-- C9: for every url matching the worker route pattern with index d,
even when d is at least the configured pool size, the upgrade handler
connects to port 3001 plus d with the original url as path, and the
proxy middleware relays to port 3001 plus d; neither handler consults
the pool size, so an out-of-range index is never rejected up front. -/
theorem c9_no_bound_check (N d : Nat) (hN : N ≤ d) (url : String)
    (r : Option String) (method : String) (hdrs : String → Option String)
    (h : matchWorkerUrl url = some (d, r)) :
    upgradeHandler url = UpgradeAction.connectWorker (3001 + d) url ∧
    (proxyMiddleware method url hdrs).map RelaySpec.port = some (3001 + d) := by
  constructor
  · unfold upgradeHandler
    rw [h]
  · simp [proxyMiddleware, h]

/-- C9 witness: pool size 1 and index 7, far out of range, still routed
to port 3008 by both handlers. -/
theorem c9_witness :
    upgradeHandler "/w7/x" = UpgradeAction.connectWorker (3001 + 7) "/w7/x" ∧
    (proxyMiddleware "GET" "/w7/x" (fun _ => none)).map RelaySpec.port
      = some (3001 + 7) :=
  c9_no_bound_check 1 7 (by decide) "/w7/x" (some "/x") "GET" (fun _ => none)
    (by decide)

/-- C10: before any aggregation cycle has run, the public lobbies
endpoint sends the initial cached value, the empty string, which is not
the serialization of an empty lobby list. -/
theorem c10_initial_listing :
    publicLobbiesResponse initialMasterState = "" ∧
    serializeListing [] = "\x7b\"lobbies\":[]\x7d" ∧
    publicLobbiesResponse initialMasterState ≠ serializeListing [] := by
  refine ⟨rfl, rfl, by decide⟩
